import Mathlib

/-!
Verification of the obstacle evaluation dispatch subsystem
(`modules/prediction/evaluator/evaluator_manager.cc`).

The C++ source is shallowly embedded: protobuf enums become inductive types,
the obstacle container becomes a lookup function plus id lists, the
`std::unordered_map` bucket map becomes a function from bucket id to obstacle
list, and the history map (whose iteration order matters for the frame dump)
becomes an association list with in-place-update semantics.  C++ `%` on `int`
is truncated division, embedded as `Int.tmod`.  Strategy invocations are
recorded as a list of `Invocation` values; the `CHECK_NOTNULL` process abort
is the `Except.error` outcome.
-/

namespace ApolloPrediction

/-- `PerceptionObstacle::Type` as used by the dispatch switch. -/
inductive PerceptionType
  | VEHICLE
  | BICYCLE
  | PEDESTRIAN
  | UNKNOWN
  deriving DecidableEq, Repr

/-- `ObstaclePriority::Priority`. -/
inductive ObstaclePriority
  | NORMAL
  | CAUTION
  | IGNORE
  deriving DecidableEq, Repr

/-- `ObstacleConf::EvaluatorType`. -/
inductive EvaluatorType
  | MLP_EVALUATOR
  | RNN_EVALUATOR
  | COST_EVALUATOR
  | CRUISE_MLP_EVALUATOR
  | JUNCTION_MLP_EVALUATOR
  | CYCLIST_KEEP_LANE_EVALUATOR
  | LANE_SCANNING_EVALUATOR
  | PEDESTRIAN_INTERACTION_EVALUATOR
  | JUNCTION_MAP_EVALUATOR
  deriving DecidableEq, Repr

/-- `ObstacleConf::ObstacleStatus`. -/
inductive ObstacleStatus
  | ON_LANE
  | IN_JUNCTION
  | OTHER_STATUS
  deriving DecidableEq, Repr

/-- `FLAGS_prediction_offline_mode` compared against the
`PredictionConstants` mode keys. -/
inductive OfflineMode
  | normalMode
  | dumpDataForLearning
  | dumpFrameEnv
  | otherMode
  deriving DecidableEq, Repr

/-- A `Feature` protobuf message, reduced to the fields this translation
unit reads or writes.  Scalar payloads (timestamps, coordinates, extents)
are embedded as `Int`: no claim reasons about their arithmetic. -/
structure Feature where
  id : Int
  timestamp : Int
  position : Int × Int
  theta : Int
  velocity_heading : Int
  polygon_point : List (Int × Int)
  length : Int
  width : Int
  priority : ObstaclePriority
  is_still : Bool
  type : PerceptionType
  deriving DecidableEq, Repr

/-- The all-defaults `Feature` (a freshly constructed protobuf message). -/
def defaultFeature : Feature :=
  { id := 0, timestamp := 0, position := (0, 0), theta := 0,
    velocity_heading := 0, polygon_point := [], length := 0, width := 0,
    priority := .NORMAL, is_still := false, type := .UNKNOWN }

/-- An `Obstacle`, reduced to the accessors this translation unit calls.
`history` lists `feature(0), feature(1), ...`, most recent first, and
`latest_feature` is the accessor `latest_feature()`. -/
structure Obstacle where
  id : Int
  type : PerceptionType
  isStill : Bool
  isOnLane : Bool
  hasJunctionFeatureWithExits : Bool
  isCloseToJunctionExit : Bool
  latest_feature : Feature
  history : List Feature
  deriving DecidableEq, Repr

/-- The obstacles container boundary: `GetObstacle` as a lookup function,
the two per-cycle id lists, and the cycle timestamp. -/
structure ObstaclesContainer where
  obstacles : Int → Option Obstacle
  curr_frame_considered_obstacle_ids : List Int
  curr_frame_movable_obstacle_ids : List Int
  timestamp : Int

/-- The gflags this translation unit reads, plus the ego shape extents
that `VehicleConfigHelper` supplies. -/
structure Flags where
  max_thread_num : Int
  max_caution_thread_num : Int
  ego_vehicle_id : Int
  vehicle_param_length : Int
  vehicle_param_width : Int

/-- `IdObstacleListMap = std::unordered_map<int, std::list<Obstacle*>>`,
embedded as a total function (absent key = empty list, which is what
`operator[]` default-constructs). -/
abbrev IdObstacleListMap := Int → List Obstacle

/-- `(*id_obstacle_map)[key].push_back(ob)`. -/
def pushTo (m : IdObstacleListMap) (key : Int) (ob : Obstacle) : IdObstacleListMap :=
  fun k => if k = key then m k ++ [ob] else m k

/-- `GroupObstaclesByObstacleId` (lines 63-89): skip a null obstacle, a
still obstacle, and an IGNORE-priority obstacle; push a CAUTION obstacle
to bucket `id % Cc` and any other surviving obstacle to bucket
`id % (total - Cc) + Cc`.  C++ `%` on `int` is `Int.tmod`. -/
def GroupObstaclesByObstacleId (flags : Flags) (obstacle_id : Int)
    (obstacles_container : ObstaclesContainer) (id_obstacle_map : IdObstacleListMap) :
    IdObstacleListMap :=
  match obstacles_container.obstacles obstacle_id with
  | none => id_obstacle_map
  | some obstacle_ptr =>
    if obstacle_ptr.isStill then id_obstacle_map
    else
      let feature := obstacle_ptr.latest_feature
      if feature.priority = .IGNORE then id_obstacle_map
      else if feature.priority = .CAUTION then
        let id_mod := obstacle_id.tmod flags.max_caution_thread_num
        pushTo id_obstacle_map id_mod obstacle_ptr
      else
        let normal_thread_num := flags.max_thread_num - flags.max_caution_thread_num
        let id_mod := obstacle_id.tmod normal_thread_num + flags.max_caution_thread_num
        pushTo id_obstacle_map id_mod obstacle_ptr

/-- The bucket chosen by `GroupObstaclesByObstacleId` for a surviving
obstacle, as a pure function of the obstacle id and its priority. -/
def bucketOf (flags : Flags) (obstacle_id : Int) (p : ObstaclePriority) : Int :=
  if p = .CAUTION then obstacle_id.tmod flags.max_caution_thread_num
  else obstacle_id.tmod (flags.max_thread_num - flags.max_caution_thread_num) +
    flags.max_caution_thread_num

/-- The multithreaded grouping loop of `Run` (lines 199-202): fold
`GroupObstaclesByObstacleId` over the considered ids, starting from the
freshly constructed empty map. -/
def partitionIds (flags : Flags) (obstacles_container : ObstaclesContainer)
    (ids : List Int) : IdObstacleListMap :=
  ids.foldl (fun m oid => GroupObstaclesByObstacleId flags oid obstacles_container m)
    (fun _ => [])

/-- An evaluator instance: its `GetName` string and its two `Evaluate`
overloads, each returning the "result produced" flag. -/
structure Evaluator where
  name : String
  evaluate : Obstacle → Bool
  evaluateWithEnv : Obstacle → List Obstacle → Bool

/-- The `EvaluatorManager` state that `EvaluateObstacle` reads: the
registry (`evaluators_`, with `none` for an absent or null entry) and the
five resolved evaluator routes. -/
structure EvaluatorManager where
  evaluators : EvaluatorType → Option Evaluator
  vehicle_on_lane_evaluator : EvaluatorType
  vehicle_in_junction_evaluator : EvaluatorType
  cyclist_on_lane_evaluator : EvaluatorType
  default_on_lane_evaluator : EvaluatorType
  pedestrian_evaluator : EvaluatorType

/-- `EvaluatorManager::GetEvaluator` (lines 174-178): registry lookup,
null when absent. -/
def GetEvaluator (mgr : EvaluatorManager) (type : EvaluatorType) : Option Evaluator :=
  mgr.evaluators type

/-- One recorded strategy call: which evaluator type was invoked, whether
the dynamic-environment overload was used, and the returned flag. -/
structure Invocation where
  evaluator : EvaluatorType
  withDynamicEnv : Bool
  produced : Bool
  deriving DecidableEq, Repr

/-- `EvaluatorManager::EvaluateObstacle` (lines 231-288).  The result is
the ordered list of strategy invocations, or `Except.error ()` when a
`CHECK_NOTNULL` on an absent evaluator aborts the process.  The
`PEDESTRIAN` switch case is commented out in the source, so PEDESTRIAN
obstacles take the `default:` branch together with UNKNOWN ones. -/
def EvaluateObstacle (mgr : EvaluatorManager) (obstacle : Obstacle)
    (dynamic_env : List Obstacle) : Except Unit (List Invocation) :=
  match obstacle.type with
  | .VEHICLE =>
    if obstacle.hasJunctionFeatureWithExits && !obstacle.isCloseToJunctionExit then
      if obstacle.latest_feature.priority = .CAUTION then
        match GetEvaluator mgr .JUNCTION_MAP_EVALUATOR with
        | none => .error ()
        | some evaluator =>
          if evaluator.evaluate obstacle then
            .ok [{ evaluator := .JUNCTION_MAP_EVALUATOR, withDynamicEnv := false,
                   produced := true }]
          else
            match GetEvaluator mgr mgr.vehicle_in_junction_evaluator with
            | none => .error ()
            | some evaluator2 =>
              .ok [{ evaluator := .JUNCTION_MAP_EVALUATOR, withDynamicEnv := false,
                     produced := false },
                   { evaluator := mgr.vehicle_in_junction_evaluator,
                     withDynamicEnv := false,
                     produced := evaluator2.evaluate obstacle }]
      else
        match GetEvaluator mgr mgr.vehicle_in_junction_evaluator with
        | none => .error ()
        | some evaluator =>
          .ok [{ evaluator := mgr.vehicle_in_junction_evaluator,
                 withDynamicEnv := false, produced := evaluator.evaluate obstacle }]
    else if obstacle.isOnLane then
      match GetEvaluator mgr mgr.vehicle_on_lane_evaluator with
      | none => .error ()
      | some evaluator =>
        if evaluator.name = "LANE_SCANNING_EVALUATOR" then
          .ok [{ evaluator := mgr.vehicle_on_lane_evaluator, withDynamicEnv := true,
                 produced := evaluator.evaluateWithEnv obstacle dynamic_env }]
        else
          .ok [{ evaluator := mgr.vehicle_on_lane_evaluator, withDynamicEnv := false,
                 produced := evaluator.evaluate obstacle }]
    else .ok []
  | .BICYCLE =>
    if obstacle.isOnLane then
      match GetEvaluator mgr mgr.cyclist_on_lane_evaluator with
      | none => .error ()
      | some evaluator =>
        .ok [{ evaluator := mgr.cyclist_on_lane_evaluator, withDynamicEnv := false,
               produced := evaluator.evaluate obstacle }]
    else .ok []
  | _ =>
    if obstacle.isOnLane then
      match GetEvaluator mgr mgr.default_on_lane_evaluator with
      | none => .error ()
      | some evaluator =>
        .ok [{ evaluator := mgr.default_on_lane_evaluator, withDynamicEnv := false,
               produced := evaluator.evaluate obstacle }]
    else .ok []

/-- Number of invocations in a dispatch that reported a produced result. -/
def countProduced (l : List Invocation) : Nat :=
  (l.filter (fun inv => inv.produced)).length

/-- The per-id filter of the sequential (single-threaded) branch of `Run`
(lines 211-225): drop negative ids, absent obstacles and still obstacles.
Note the branch has no IGNORE-priority check. -/
def singleThreadFilter (obstacles_container : ObstaclesContainer) (id : Int) :
    Option Obstacle :=
  if id < 0 then none
  else
    match obstacles_container.obstacles id with
    | none => none
    | some obstacle => if obstacle.isStill then none else some obstacle

/-- The obstacles the sequential branch of `Run` dispatches, in container
iteration order. -/
def singleThreadDispatchList (obstacles_container : ObstaclesContainer) :
    List Obstacle :=
  obstacles_container.curr_frame_considered_obstacle_ids.filterMap
    (singleThreadFilter obstacles_container)

/-- The sequential branch of `Run` (lines 210-228): filter each considered
id and dispatch every survivor through `EvaluateObstacle`, collecting the
per-obstacle outcomes in order. -/
def RunSingleThread (mgr : EvaluatorManager)
    (obstacles_container : ObstaclesContainer) (dynamic_env : List Obstacle) :
    List (Except Unit (List Invocation)) :=
  obstacles_container.curr_frame_considered_obstacle_ids.filterMap (fun id =>
    if id < 0 then none
    else
      match obstacles_container.obstacles id with
      | none => none
      | some obstacle =>
        if obstacle.isStill then none
        else some (EvaluateObstacle mgr obstacle dynamic_env))

/-- `IsTrainable` (lines 52-61). -/
def IsTrainable (flags : Flags) (feature : Feature) : Bool :=
  if feature.id = flags.ego_vehicle_id then false
  else if feature.priority = .IGNORE ∨ feature.is_still = true ∨
      feature.type ≠ .VEHICLE then false
  else true

/-- One record of `obstacle_id_history_map_`: the protobuf holding the
copied `feature` frames and the `is_trainable` flag. -/
structure ObstacleHistory where
  feature : List Feature
  is_trainable : Bool
  deriving DecidableEq, Repr

/-- A freshly default-constructed `ObstacleHistory` record (what
`operator[]` creates for a new key). -/
def emptyHistory : ObstacleHistory := { feature := [], is_trainable := false }

/-- `obstacle_id_history_map_` as an association list: `setHist` updates
in place or appends, so iteration order is the insertion order. -/
abbrev HistoryMap := List (Int × ObstacleHistory)

/-- Lookup of a key in the history map. -/
def lookupHist (id : Int) : HistoryMap → Option ObstacleHistory
  | [] => none
  | (k, h) :: rest => if k = id then some h else lookupHist id rest

/-- `map[id] = h`: replace the record under an existing key, append a new
pair otherwise. -/
def setHist (id : Int) (h : ObstacleHistory) : HistoryMap → HistoryMap
  | [] => [(id, h)]
  | (k, h0) :: rest =>
    if k = id then (k, h) :: rest else (k, h0) :: setHist id h rest

/-- The per-frame projection of lines 316-332: copy id, timestamp and
position, set `theta` from `velocity_heading`; a non-ego frame keeps its
polygon and perception extents, the ego frame takes the vehicle-config
extents and carries no polygon. -/
def projectFeature (flags : Flags) (obstacle_feature : Feature) : Feature :=
  let base : Feature :=
    { defaultFeature with
        id := obstacle_feature.id,
        timestamp := obstacle_feature.timestamp,
        position := obstacle_feature.position,
        theta := obstacle_feature.velocity_heading }
  if obstacle_feature.id ≠ flags.ego_vehicle_id then
    { base with
        polygon_point := obstacle_feature.polygon_point,
        length := obstacle_feature.length,
        width := obstacle_feature.width }
  else
    { base with
        length := flags.vehicle_param_length,
        width := flags.vehicle_param_width }

/-- The body of the id loop of `BuildObstacleIdHistoryMap` (lines 308-337):
skip an absent obstacle or one with empty history; otherwise append the
projections of the `min 10 history_size` most recent frames to the id's
record and overwrite its `is_trainable` flag from the latest feature. -/
def buildStep (flags : Flags) (obstacles_container : ObstaclesContainer)
    (m : HistoryMap) (id : Int) : HistoryMap :=
  match obstacles_container.obstacles id with
  | none => m
  | some obstacle =>
    if obstacle.history.length = 0 then m
    else
      let num_frames := min 10 obstacle.history.length
      let new_features := (obstacle.history.take num_frames).map (projectFeature flags)
      let old := (lookupHist id m).getD emptyHistory
      setHist id
        { feature := old.feature ++ new_features,
          is_trainable := IsTrainable flags obstacle.latest_feature } m

/-- `EvaluatorManager::BuildObstacleIdHistoryMap` (lines 295-338): clear
the map, then fold the loop body over the movable ids plus the synthetic
ego id. -/
def BuildObstacleIdHistoryMap (flags : Flags)
    (obstacles_container : ObstaclesContainer) : HistoryMap :=
  (obstacles_container.curr_frame_movable_obstacle_ids ++ [flags.ego_vehicle_id]).foldl
    (buildStep flags obstacles_container) []

/-- The `FrameEnv` protobuf: cycle timestamp, the optional ego history and
the list of other obstacle histories. -/
structure FrameEnv where
  timestamp : Int
  ego_history : Option ObstacleHistory
  obstacles_history : List ObstacleHistory
  deriving DecidableEq, Repr

/-- `EvaluatorManager::DumpCurrentFrameEnv` (lines 340-357): route each
history-map record into `obstacles_history` or, for the ego id, into
`ego_history`. -/
def DumpCurrentFrameEnv (flags : Flags) (obstacles_container : ObstaclesContainer)
    (m : HistoryMap) : FrameEnv :=
  m.foldl
    (fun curr_frame_env pair =>
      if pair.1 ≠ flags.ego_vehicle_id then
        { curr_frame_env with
            obstacles_history := curr_frame_env.obstacles_history ++ [pair.2] }
      else
        { curr_frame_env with ego_history := some pair.2 })
    { timestamp := obstacles_container.timestamp, ego_history := none,
      obstacles_history := [] }

/-- One `ObstacleConf` entry of the `PredictionConf` config: the three
optional protobuf fields with their `has_` bits. -/
structure ObstacleConf where
  has_obstacle_type : Bool
  obstacle_type : PerceptionType
  has_obstacle_status : Bool
  obstacle_status : ObstacleStatus
  has_evaluator_type : Bool
  evaluator_type : EvaluatorType
  deriving DecidableEq, Repr

/-- The body of the config loop of `EvaluatorManager::Init` (lines
108-159): skip entries without a type or evaluator field; with a status
field, assign the matching route, forcing the vehicle-on-lane route to
`LANE_SCANNING_EVALUATOR` when the offline mode is the data-collection
(`kDumpDataForLearning`) mode, and pinning the pedestrian route. -/
def initStep (mode : OfflineMode) (mgr : EvaluatorManager)
    (obstacle_conf : ObstacleConf) : EvaluatorManager :=
  if obstacle_conf.has_obstacle_type = false then mgr
  else if obstacle_conf.has_evaluator_type = false then mgr
  else if obstacle_conf.has_obstacle_status = true then
    match obstacle_conf.obstacle_type with
    | .VEHICLE =>
      let mgr1 :=
        if obstacle_conf.obstacle_status = .ON_LANE then
          let v := obstacle_conf.evaluator_type
          let v := if mode = .dumpDataForLearning then
              EvaluatorType.LANE_SCANNING_EVALUATOR
            else v
          { mgr with vehicle_on_lane_evaluator := v }
        else mgr
      if obstacle_conf.obstacle_status = .IN_JUNCTION then
        { mgr1 with vehicle_in_junction_evaluator := obstacle_conf.evaluator_type }
      else mgr1
    | .BICYCLE =>
      if obstacle_conf.obstacle_status = .ON_LANE then
        { mgr with cyclist_on_lane_evaluator := obstacle_conf.evaluator_type }
      else mgr
    | .PEDESTRIAN =>
      { mgr with pedestrian_evaluator := .PEDESTRIAN_INTERACTION_EVALUATOR }
    | .UNKNOWN =>
      if obstacle_conf.obstacle_status = .ON_LANE then
        { mgr with default_on_lane_evaluator := obstacle_conf.evaluator_type }
      else mgr
  else mgr

/-- `EvaluatorManager::Init` (lines 107-172) restricted to route
resolution: fold the loop body over the config entries.  It is total: an
unresolvable or absent route is never an init-time error. -/
def Init (mode : OfflineMode) (mgr : EvaluatorManager)
    (config : List ObstacleConf) : EvaluatorManager :=
  config.foldl (initStep mode) mgr

/-! Concrete inputs used by witnesses and counterexamples. -/

/-- Concrete flags used by the evaluation witnesses: 4 worker slots, 1 of
them caution-dedicated, ego id -1, ego extents 5 x 2. -/
def wFlags : Flags :=
  { max_thread_num := 4, max_caution_thread_num := 1, ego_vehicle_id := -1,
    vehicle_param_length := 5, vehicle_param_width := 2 }

/-- Concrete feature constructor used by the witnesses. -/
def wFeature (i : Int) (p : ObstaclePriority) (t : PerceptionType) : Feature :=
  { defaultFeature with id := i, timestamp := i, priority := p, type := t }

/-- A CAUTION on-lane vehicle with id 1. -/
def wObCaution : Obstacle :=
  { id := 1, type := .VEHICLE, isStill := false, isOnLane := true,
    hasJunctionFeatureWithExits := false, isCloseToJunctionExit := false,
    latest_feature := wFeature 1 .CAUTION .VEHICLE,
    history := [wFeature 1 .CAUTION .VEHICLE] }

/-- A NORMAL in-junction vehicle with id 2. -/
def wObNormal : Obstacle :=
  { id := 2, type := .VEHICLE, isStill := false, isOnLane := false,
    hasJunctionFeatureWithExits := true, isCloseToJunctionExit := false,
    latest_feature := wFeature 2 .NORMAL .VEHICLE,
    history := [wFeature 2 .NORMAL .VEHICLE] }

/-- A concrete container holding the two witness obstacles. -/
def wContainer : ObstaclesContainer :=
  { obstacles := fun oid =>
      if oid = 1 then some wObCaution
      else if oid = 2 then some wObNormal
      else none,
    curr_frame_considered_obstacle_ids := [1, 2],
    curr_frame_movable_obstacle_ids := [1, 2],
    timestamp := 100 }

/-- An evaluator instance that always reports a produced result. -/
def wEvaluatorTrue : Evaluator :=
  { name := "MLP_EVALUATOR", evaluate := fun _ => true,
    evaluateWithEnv := fun _ _ => true }

/-- An evaluator instance that always declines to produce a result. -/
def wEvaluatorFalse : Evaluator :=
  { name := "JUNCTION_MAP_EVALUATOR", evaluate := fun _ => false,
    evaluateWithEnv := fun _ _ => false }

/-- A manager whose registry resolves every type to the always-producing
evaluator. -/
def wManager : EvaluatorManager :=
  { evaluators := fun _ => some wEvaluatorTrue,
    vehicle_on_lane_evaluator := .CRUISE_MLP_EVALUATOR,
    vehicle_in_junction_evaluator := .JUNCTION_MLP_EVALUATOR,
    cyclist_on_lane_evaluator := .CYCLIST_KEEP_LANE_EVALUATOR,
    default_on_lane_evaluator := .MLP_EVALUATOR,
    pedestrian_evaluator := .PEDESTRIAN_INTERACTION_EVALUATOR }

/-- A manager whose map-aware junction evaluator declines while every
other evaluator produces. -/
def wManagerJmFalse : EvaluatorManager :=
  { wManager with
      evaluators := fun t =>
        if t = .JUNCTION_MAP_EVALUATOR then some wEvaluatorFalse
        else some wEvaluatorTrue }

/-- A manager with an empty registry. -/
def wManagerEmpty : EvaluatorManager :=
  { wManager with evaluators := fun _ => none }

/-- An on-lane PEDESTRIAN obstacle with id 3. -/
def wPedestrianOnLane : Obstacle :=
  { id := 3, type := .PEDESTRIAN, isStill := false, isOnLane := true,
    hasJunctionFeatureWithExits := false, isCloseToJunctionExit := false,
    latest_feature := wFeature 3 .NORMAL .PEDESTRIAN,
    history := [wFeature 3 .NORMAL .PEDESTRIAN] }

/-- An off-lane PEDESTRIAN obstacle with id 5. -/
def wPedestrianOffLane : Obstacle :=
  { id := 5, type := .PEDESTRIAN, isStill := false, isOnLane := false,
    hasJunctionFeatureWithExits := false, isCloseToJunctionExit := false,
    latest_feature := wFeature 5 .NORMAL .PEDESTRIAN,
    history := [wFeature 5 .NORMAL .PEDESTRIAN] }

/-- A CAUTION vehicle with id 6 near a junction with exits and away from
the exit proximity. -/
def wObJunctionCaution : Obstacle :=
  { id := 6, type := .VEHICLE, isStill := false, isOnLane := true,
    hasJunctionFeatureWithExits := true, isCloseToJunctionExit := false,
    latest_feature := wFeature 6 .CAUTION .VEHICLE,
    history := [wFeature 6 .CAUTION .VEHICLE] }

/-- A non-still IGNORE-priority vehicle with id 4. -/
def wObIgnore : Obstacle :=
  { id := 4, type := .VEHICLE, isStill := false, isOnLane := true,
    hasJunctionFeatureWithExits := false, isCloseToJunctionExit := false,
    latest_feature := wFeature 4 .IGNORE .VEHICLE,
    history := [wFeature 4 .IGNORE .VEHICLE] }

/-- A container holding only the IGNORE-priority obstacle 4. -/
def wContainerIgnore : ObstaclesContainer :=
  { obstacles := fun oid => if oid = 4 then some wObIgnore else none,
    curr_frame_considered_obstacle_ids := [4],
    curr_frame_movable_obstacle_ids := [4],
    timestamp := 100 }

/-- The history record the builder produces for witness obstacle 1. -/
def wHist1 : ObstacleHistory :=
  { feature := [projectFeature wFlags (wFeature 1 .CAUTION .VEHICLE)],
    is_trainable := IsTrainable wFlags (wFeature 1 .CAUTION .VEHICLE) }

/-- The history record the builder produces for witness obstacle 2. -/
def wHist2 : ObstacleHistory :=
  { feature := [projectFeature wFlags (wFeature 2 .NORMAL .VEHICLE)],
    is_trainable := IsTrainable wFlags (wFeature 2 .NORMAL .VEHICLE) }

/-- A vehicle-on-lane config entry declaring the MLP evaluator. -/
def wConfVehicleOnLane : ObstacleConf :=
  { has_obstacle_type := true, obstacle_type := .VEHICLE,
    has_obstacle_status := true, obstacle_status := .ON_LANE,
    has_evaluator_type := true, evaluator_type := .MLP_EVALUATOR }

/-! Theorems. -/

lemma group_eq_pushTo (flags : Flags) (oid : Int) (c : ObstaclesContainer)
    (m : IdObstacleListMap) (ob : Obstacle)
    (hget : c.obstacles oid = some ob)
    (hstill : ob.isStill = false)
    (hpri : ob.latest_feature.priority ≠ .IGNORE) :
    GroupObstaclesByObstacleId flags oid c m =
      pushTo m (bucketOf flags oid ob.latest_feature.priority) ob := by
  unfold GroupObstaclesByObstacleId bucketOf
  rw [hget]
  simp only [hstill, Bool.false_eq_true, if_false]
  by_cases hc : ob.latest_feature.priority = .CAUTION
  · simp [hpri, hc]
  · simp [hpri, hc]

/-- Claim C1: in multithreaded mode, with `Cc` caution-dedicated slots and
`Cn = total slots - Cc`, a surviving CAUTION obstacle is assigned bucket
`id mod Cc`, which lies in `[0, Cc)`, and a surviving non-CAUTION obstacle
is assigned bucket `(id mod Cn) + Cc`, which lies in `[Cc, Cc + Cn)`.
Hypotheses: positive slot counts, and a nonnegative id (the container
filters out invalid negative ids; the sequential path checks `id < 0`). -/
theorem caution_and_normal_bucket_ranges (flags : Flags) (oid : Int)
    (c : ObstaclesContainer) (m : IdObstacleListMap) (ob : Obstacle)
    (hCc : 0 < flags.max_caution_thread_num)
    (hCn : flags.max_caution_thread_num < flags.max_thread_num)
    (hid : 0 ≤ oid)
    (hget : c.obstacles oid = some ob)
    (hstill : ob.isStill = false)
    (hpri : ob.latest_feature.priority ≠ .IGNORE) :
    GroupObstaclesByObstacleId flags oid c m =
      pushTo m (bucketOf flags oid ob.latest_feature.priority) ob
    ∧ (ob.latest_feature.priority = .CAUTION →
        bucketOf flags oid ob.latest_feature.priority =
          oid.tmod flags.max_caution_thread_num
        ∧ 0 ≤ bucketOf flags oid ob.latest_feature.priority
        ∧ bucketOf flags oid ob.latest_feature.priority < flags.max_caution_thread_num)
    ∧ (ob.latest_feature.priority ≠ .CAUTION →
        bucketOf flags oid ob.latest_feature.priority =
          oid.tmod (flags.max_thread_num - flags.max_caution_thread_num) +
            flags.max_caution_thread_num
        ∧ flags.max_caution_thread_num ≤ bucketOf flags oid ob.latest_feature.priority
        ∧ bucketOf flags oid ob.latest_feature.priority <
            flags.max_caution_thread_num +
              (flags.max_thread_num - flags.max_caution_thread_num)) := by
  refine ⟨group_eq_pushTo flags oid c m ob hget hstill hpri, ?_, ?_⟩
  · intro hcaution
    have hb : bucketOf flags oid ob.latest_feature.priority =
        oid.tmod flags.max_caution_thread_num := by
      unfold bucketOf; simp [hcaution]
    refine ⟨hb, ?_, ?_⟩
    · rw [hb, Int.tmod_eq_emod hid (le_of_lt hCc)]
      exact Int.emod_nonneg oid (ne_of_gt hCc)
    · rw [hb]
      exact Int.tmod_lt_of_pos oid hCc
  · intro hnc
    have hb : bucketOf flags oid ob.latest_feature.priority =
        oid.tmod (flags.max_thread_num - flags.max_caution_thread_num) +
          flags.max_caution_thread_num := by
      unfold bucketOf; simp [hnc]
    have hpos : 0 < flags.max_thread_num - flags.max_caution_thread_num := by omega
    have h1 : 0 ≤ oid.tmod (flags.max_thread_num - flags.max_caution_thread_num) := by
      rw [Int.tmod_eq_emod hid (le_of_lt hpos)]
      exact Int.emod_nonneg oid (ne_of_gt hpos)
    have h2 : oid.tmod (flags.max_thread_num - flags.max_caution_thread_num) <
        flags.max_thread_num - flags.max_caution_thread_num :=
      Int.tmod_lt_of_pos oid hpos
    refine ⟨hb, ?_, ?_⟩ <;> rw [hb] <;> omega

/-- Witness for C1: obstacle 1 (CAUTION) under `Cc = 1`, `Cn = 3` is
assigned bucket `1 mod 1 = 0`. -/
theorem caution_and_normal_bucket_ranges_witness :
    GroupObstaclesByObstacleId wFlags 1 wContainer (fun _ => []) =
      pushTo (fun _ => []) (bucketOf wFlags 1 wObCaution.latest_feature.priority)
        wObCaution :=
  (caution_and_normal_bucket_ranges wFlags 1 wContainer (fun _ => []) wObCaution
    (by decide) (by decide) (by decide) (by decide) (by decide) (by decide)).1

lemma mem_pushTo (m : IdObstacleListMap) (key : Int) (ob : Obstacle) (b : Int)
    (x : Obstacle) : x ∈ pushTo m key ob b ↔ x ∈ m b ∨ (b = key ∧ x = ob) := by
  unfold pushTo
  by_cases hb : b = key
  · simp [hb]
  · simp [hb]

lemma group_cases (flags : Flags) (oid : Int) (c : ObstaclesContainer)
    (m : IdObstacleListMap) :
    GroupObstaclesByObstacleId flags oid c m = m ∨
    ∃ ob, c.obstacles oid = some ob ∧ ob.isStill = false ∧
      ob.latest_feature.priority ≠ .IGNORE ∧
      GroupObstaclesByObstacleId flags oid c m =
        pushTo m (bucketOf flags oid ob.latest_feature.priority) ob := by
  cases hget : c.obstacles oid with
  | none => left; unfold GroupObstaclesByObstacleId; rw [hget]
  | some ob =>
    by_cases hstill : ob.isStill = true
    · left; unfold GroupObstaclesByObstacleId; rw [hget]; simp [hstill]
    · by_cases hpri : ob.latest_feature.priority = .IGNORE
      · left; unfold GroupObstaclesByObstacleId; rw [hget]
        simp [hpri, (by simpa using hstill : ob.isStill = false)]
      · right
        have hstill2 : ob.isStill = false := by simpa using hstill
        exact ⟨ob, rfl, hstill2, hpri,
          group_eq_pushTo flags oid c m ob hget hstill2 hpri⟩

lemma mem_group (flags : Flags) (oid : Int) (c : ObstaclesContainer)
    (m : IdObstacleListMap) (b : Int) (x : Obstacle)
    (h : x ∈ GroupObstaclesByObstacleId flags oid c m b) :
    x ∈ m b ∨ (c.obstacles oid = some x ∧ x.isStill = false ∧
      x.latest_feature.priority ≠ .IGNORE ∧
      b = bucketOf flags oid x.latest_feature.priority) := by
  rcases group_cases flags oid c m with heq | ⟨ob, hget, hstill, hpri, heq⟩
  · rw [heq] at h; exact Or.inl h
  · rw [heq] at h
    rcases (mem_pushTo m _ ob b x).mp h with h1 | ⟨hb, hx⟩
    · exact Or.inl h1
    · subst hx; exact Or.inr ⟨hget, hstill, hpri, hb⟩

lemma group_mono (flags : Flags) (oid : Int) (c : ObstaclesContainer)
    (m : IdObstacleListMap) (b : Int) (x : Obstacle) (h : x ∈ m b) :
    x ∈ GroupObstaclesByObstacleId flags oid c m b := by
  rcases group_cases flags oid c m with heq | ⟨ob, _, _, _, heq⟩
  · rw [heq]; exact h
  · rw [heq]; exact (mem_pushTo m _ ob b x).mpr (Or.inl h)

lemma mem_foldl_group (flags : Flags) (c : ObstaclesContainer) (ids : List Int)
    (m : IdObstacleListMap) (b : Int) (x : Obstacle)
    (h : x ∈ (ids.foldl (fun m oid => GroupObstaclesByObstacleId flags oid c m) m) b) :
    x ∈ m b ∨ ∃ oid, oid ∈ ids ∧ c.obstacles oid = some x ∧ x.isStill = false ∧
      x.latest_feature.priority ≠ .IGNORE ∧
      b = bucketOf flags oid x.latest_feature.priority := by
  induction ids generalizing m with
  | nil => exact Or.inl h
  | cons a t ih =>
    rcases ih _ h with h1 | ⟨oid, hmem, rest⟩
    · rcases mem_group flags a c m b x h1 with h2 | ⟨hget, hstill, hpri, hb⟩
      · exact Or.inl h2
      · exact Or.inr ⟨a, List.mem_cons_self a t, hget, hstill, hpri, hb⟩
    · exact Or.inr ⟨oid, List.mem_cons_of_mem a hmem, rest⟩

lemma foldl_group_mono (flags : Flags) (c : ObstaclesContainer) (ids : List Int)
    (m : IdObstacleListMap) (b : Int) (x : Obstacle) (h : x ∈ m b) :
    x ∈ (ids.foldl (fun m oid => GroupObstaclesByObstacleId flags oid c m) m) b := by
  induction ids generalizing m with
  | nil => exact h
  | cons a t ih => exact ih _ (group_mono flags a c m b x h)

lemma mem_foldl_group_of_mem (flags : Flags) (c : ObstaclesContainer)
    (ids : List Int) (m : IdObstacleListMap) (oid : Int) (x : Obstacle)
    (hmem : oid ∈ ids) (hget : c.obstacles oid = some x)
    (hstill : x.isStill = false) (hpri : x.latest_feature.priority ≠ .IGNORE) :
    x ∈ (ids.foldl (fun m oid => GroupObstaclesByObstacleId flags oid c m) m)
      (bucketOf flags oid x.latest_feature.priority) := by
  induction ids generalizing m with
  | nil => cases hmem
  | cons a t ih =>
    simp only [List.foldl_cons]
    rcases List.mem_cons.mp hmem with rfl | hmem2
    · apply foldl_group_mono
      rw [group_eq_pushTo flags oid c m x hget hstill hpri]
      exact (mem_pushTo m _ x _ x).mpr (Or.inr ⟨rfl, rfl⟩)
    · exact ih _ hmem2

/-- Claim C2: for fixed configured slot counts, the bucket of every placed
obstacle is the pure function `bucketOf` of its `(id, priority)` alone
(so re-running the grouping loop over the same obstacle set reproduces the
same assignment), every surviving id is placed in its bucket, and no
obstacle is ever placed in two distinct buckets.  The hypothesis states
that the container returns the obstacle registered under the queried id. -/
theorem partition_deterministic_and_exclusive (flags : Flags)
    (c : ObstaclesContainer) (ids : List Int)
    (hwf : ∀ oid ob, c.obstacles oid = some ob → ob.id = oid) :
    (∀ oid ∈ ids, ∀ ob, c.obstacles oid = some ob → ob.isStill = false →
      ob.latest_feature.priority ≠ .IGNORE →
      ob ∈ partitionIds flags c ids (bucketOf flags oid ob.latest_feature.priority))
    ∧ (∀ b ob, ob ∈ partitionIds flags c ids b →
      b = bucketOf flags ob.id ob.latest_feature.priority)
    ∧ (∀ b₁ b₂ ob, ob ∈ partitionIds flags c ids b₁ →
      ob ∈ partitionIds flags c ids b₂ → b₁ = b₂) := by
  have key : ∀ b ob, ob ∈ partitionIds flags c ids b →
      b = bucketOf flags ob.id ob.latest_feature.priority := by
    intro b ob h
    rcases mem_foldl_group flags c ids _ b ob h with h1 | ⟨oid, _, hget, _, _, hb⟩
    · cases h1
    · rw [← hwf oid ob hget] at hb; exact hb
  refine ⟨?_, key, ?_⟩
  · intro oid hmem ob hget hstill hpri
    exact mem_foldl_group_of_mem flags c ids _ oid ob hmem hget hstill hpri
  · intro b₁ b₂ ob h₁ h₂
    rw [key b₁ ob h₁, key b₂ ob h₂]

/-- Witness for C2: in the concrete two-obstacle container, obstacle 1 is
placed in its unique bucket. -/
theorem partition_deterministic_and_exclusive_witness :
    wObCaution ∈ partitionIds wFlags wContainer [1, 2]
      (bucketOf wFlags 1 wObCaution.latest_feature.priority) :=
  (partition_deterministic_and_exclusive wFlags wContainer [1, 2]
    (fun oid ob h => by
      dsimp only [wContainer] at h
      split at h
      · next h1 => injection h with h3; subst h3; subst h1; decide
      · next h1 =>
          split at h
          · next h2 => injection h with h3; subst h3; subst h2; decide
          · next h2 => exact Option.noConfusion h)).1
    1 (by decide) wObCaution (by decide) (by decide) (by decide)

/-- Counterexample to C3 as stated: dispatching the concrete on-lane
PEDESTRIAN obstacle invokes one strategy (the default-on-lane route,
because the `PEDESTRIAN` switch case is commented out and the obstacle
takes the `default:` branch), not zero. -/
theorem pedestrian_zero_invocations_counterexample :
    EvaluateObstacle wManager wPedestrianOnLane [] =
      .ok [{ evaluator := .MLP_EVALUATOR, withDynamicEnv := false, produced := true }]
    ∧ EvaluateObstacle wManager wPedestrianOnLane [] ≠ .ok [] := by
  refine ⟨rfl, ?_⟩
  intro h
  have h2 : (Except.ok [Invocation.mk .MLP_EVALUATOR false true] :
      Except Unit (List Invocation)) = .ok [] := h
  exact List.cons_ne_nil _ _ (Except.ok.inj h2)

/-- Claim C3 (amended): no pedestrian-specific strategy is invoked on a
PEDESTRIAN obstacle; an off-lane pedestrian receives zero invocations,
while an on-lane pedestrian falls into the `default:` branch and receives
exactly one invocation of the default-on-lane route (or the fatal abort
when that route is absent). -/
theorem pedestrian_dispatch_behavior (mgr : EvaluatorManager) (ob : Obstacle)
    (dynamic_env : List Obstacle) (hped : ob.type = .PEDESTRIAN) :
    (ob.isOnLane = false → EvaluateObstacle mgr ob dynamic_env = .ok [])
    ∧ (ob.isOnLane = true →
        (GetEvaluator mgr mgr.default_on_lane_evaluator = none →
          EvaluateObstacle mgr ob dynamic_env = .error ())
        ∧ ∀ ev, GetEvaluator mgr mgr.default_on_lane_evaluator = some ev →
            EvaluateObstacle mgr ob dynamic_env =
              .ok [{ evaluator := mgr.default_on_lane_evaluator,
                     withDynamicEnv := false, produced := ev.evaluate ob }]) := by
  refine ⟨?_, fun hlane => ⟨?_, ?_⟩⟩
  · intro hlane
    simp [EvaluateObstacle, hped, hlane]
  · intro hnone
    simp [EvaluateObstacle, hped, hlane, hnone]
  · intro ev hev
    simp [EvaluateObstacle, hped, hlane, hev]

/-- Witness for the amended C3: the concrete off-lane pedestrian receives
zero invocations. -/
theorem pedestrian_dispatch_behavior_witness :
    EvaluateObstacle wManager wPedestrianOffLane [] = .ok [] :=
  (pedestrian_dispatch_behavior wManager wPedestrianOffLane [] rfl).1 rfl

/-- Claim C5: for a VEHICLE near an upcoming junction and not within
exit-proximity, with both junction routes resolvable: a CAUTION obstacle
gets the map-aware junction strategy first and the junction route
strategy afterwards exactly when the map-aware call reports no result; a
non-CAUTION obstacle gets the junction route strategy directly; every
outcome has at most two invocations, at most one of which produced. -/
theorem junction_dispatch_fallback (mgr : EvaluatorManager) (ob : Obstacle)
    (dynamic_env : List Obstacle) (jm jr : Evaluator)
    (htype : ob.type = .VEHICLE)
    (hjunction : ob.hasJunctionFeatureWithExits = true)
    (hexit : ob.isCloseToJunctionExit = false)
    (hjm : GetEvaluator mgr .JUNCTION_MAP_EVALUATOR = some jm)
    (hjr : GetEvaluator mgr mgr.vehicle_in_junction_evaluator = some jr) :
    (ob.latest_feature.priority = .CAUTION →
      (jm.evaluate ob = true →
        EvaluateObstacle mgr ob dynamic_env =
          .ok [{ evaluator := .JUNCTION_MAP_EVALUATOR, withDynamicEnv := false,
                 produced := true }])
      ∧ (jm.evaluate ob = false →
        EvaluateObstacle mgr ob dynamic_env =
          .ok [{ evaluator := .JUNCTION_MAP_EVALUATOR, withDynamicEnv := false,
                 produced := false },
               { evaluator := mgr.vehicle_in_junction_evaluator,
                 withDynamicEnv := false, produced := jr.evaluate ob }]))
    ∧ (ob.latest_feature.priority ≠ .CAUTION →
      EvaluateObstacle mgr ob dynamic_env =
        .ok [{ evaluator := mgr.vehicle_in_junction_evaluator,
               withDynamicEnv := false, produced := jr.evaluate ob }])
    ∧ (∀ l, EvaluateObstacle mgr ob dynamic_env = .ok l →
        l.length ≤ 2 ∧ countProduced l ≤ 1) := by
  have hcaution_true : ob.latest_feature.priority = .CAUTION → jm.evaluate ob = true →
      EvaluateObstacle mgr ob dynamic_env =
        .ok [{ evaluator := .JUNCTION_MAP_EVALUATOR, withDynamicEnv := false,
               produced := true }] := by
    intro hpri hres
    simp [EvaluateObstacle, htype, hjunction, hexit, hpri, hjm, hres]
  have hcaution_false : ob.latest_feature.priority = .CAUTION → jm.evaluate ob = false →
      EvaluateObstacle mgr ob dynamic_env =
        .ok [{ evaluator := .JUNCTION_MAP_EVALUATOR, withDynamicEnv := false,
               produced := false },
             { evaluator := mgr.vehicle_in_junction_evaluator,
               withDynamicEnv := false, produced := jr.evaluate ob }] := by
    intro hpri hres
    simp [EvaluateObstacle, htype, hjunction, hexit, hpri, hjm, hres, hjr]
  have hnormal : ob.latest_feature.priority ≠ .CAUTION →
      EvaluateObstacle mgr ob dynamic_env =
        .ok [{ evaluator := mgr.vehicle_in_junction_evaluator,
               withDynamicEnv := false, produced := jr.evaluate ob }] := by
    intro hpri
    simp [EvaluateObstacle, htype, hjunction, hexit, hpri, hjr]
  refine ⟨fun hpri => ⟨hcaution_true hpri, hcaution_false hpri⟩, hnormal, ?_⟩
  intro l h
  by_cases hpri : ob.latest_feature.priority = .CAUTION
  · by_cases hres : jm.evaluate ob = true
    · rw [hcaution_true hpri hres] at h
      cases Except.ok.inj h
      simp [countProduced]
    · have hres2 : jm.evaluate ob = false := by simpa using hres
      rw [hcaution_false hpri hres2] at h
      cases Except.ok.inj h
      cases hb : jr.evaluate ob <;> simp [countProduced, hb]
  · rw [hnormal hpri] at h
    cases Except.ok.inj h
    cases hb : jr.evaluate ob <;> simp [countProduced, hb]

/-- Witness for C5: the concrete CAUTION junction vehicle under the
manager whose map-aware evaluator declines receives the map-aware call
followed by exactly one junction-route call. -/
theorem junction_dispatch_fallback_witness :
    EvaluateObstacle wManagerJmFalse wObJunctionCaution [] =
      .ok [{ evaluator := .JUNCTION_MAP_EVALUATOR, withDynamicEnv := false,
             produced := false },
           { evaluator := wManagerJmFalse.vehicle_in_junction_evaluator,
             withDynamicEnv := false,
             produced := wEvaluatorTrue.evaluate wObJunctionCaution }] :=
  ((junction_dispatch_fallback wManagerJmFalse wObJunctionCaution []
      wEvaluatorFalse wEvaluatorTrue rfl rfl rfl rfl rfl).1 rfl).2 rfl

/-- Claim C6: at every dispatch path that reaches a strategy invocation,
an absent (unregistered or null) evaluator for the resolved route makes
`EvaluateObstacle` abort fatally (`CHECK_NOTNULL`), never skip the
invocation.  Route resolution itself (`Init` below) is a total function:
absence of a route is never an init-time error. -/
theorem absent_route_aborts_dispatch (mgr : EvaluatorManager) (ob : Obstacle)
    (dynamic_env : List Obstacle) :
    (ob.type = .VEHICLE → ob.hasJunctionFeatureWithExits = true →
      ob.isCloseToJunctionExit = false → ob.latest_feature.priority = .CAUTION →
      GetEvaluator mgr .JUNCTION_MAP_EVALUATOR = none →
      EvaluateObstacle mgr ob dynamic_env = .error ())
    ∧ (ob.type = .VEHICLE → ob.hasJunctionFeatureWithExits = true →
      ob.isCloseToJunctionExit = false → ob.latest_feature.priority = .CAUTION →
      ∀ jm, GetEvaluator mgr .JUNCTION_MAP_EVALUATOR = some jm →
      jm.evaluate ob = false →
      GetEvaluator mgr mgr.vehicle_in_junction_evaluator = none →
      EvaluateObstacle mgr ob dynamic_env = .error ())
    ∧ (ob.type = .VEHICLE → ob.hasJunctionFeatureWithExits = true →
      ob.isCloseToJunctionExit = false → ob.latest_feature.priority ≠ .CAUTION →
      GetEvaluator mgr mgr.vehicle_in_junction_evaluator = none →
      EvaluateObstacle mgr ob dynamic_env = .error ())
    ∧ (ob.type = .VEHICLE →
      (ob.hasJunctionFeatureWithExits = false ∨ ob.isCloseToJunctionExit = true) →
      ob.isOnLane = true →
      GetEvaluator mgr mgr.vehicle_on_lane_evaluator = none →
      EvaluateObstacle mgr ob dynamic_env = .error ())
    ∧ (ob.type = .BICYCLE → ob.isOnLane = true →
      GetEvaluator mgr mgr.cyclist_on_lane_evaluator = none →
      EvaluateObstacle mgr ob dynamic_env = .error ())
    ∧ ((ob.type = .PEDESTRIAN ∨ ob.type = .UNKNOWN) → ob.isOnLane = true →
      GetEvaluator mgr mgr.default_on_lane_evaluator = none →
      EvaluateObstacle mgr ob dynamic_env = .error ()) := by
  refine ⟨?_, ?_, ?_, ?_, ?_, ?_⟩
  · intro htype hjunction hexit hpri hnone
    simp [EvaluateObstacle, htype, hjunction, hexit, hpri, hnone]
  · intro htype hjunction hexit hpri jm hjm hres hnone
    simp [EvaluateObstacle, htype, hjunction, hexit, hpri, hjm, hres, hnone]
  · intro htype hjunction hexit hpri hnone
    simp [EvaluateObstacle, htype, hjunction, hexit, hpri, hnone]
  · intro htype hjunction hlane hnone
    rcases hjunction with hj | hj <;>
      simp [EvaluateObstacle, htype, hj, hlane, hnone]
  · intro htype hlane hnone
    simp [EvaluateObstacle, htype, hlane, hnone]
  · intro htype hlane hnone
    rcases htype with ht | ht <;>
      simp [EvaluateObstacle, ht, hlane, hnone]

/-- Witness for C6: the CAUTION junction vehicle under the empty registry
aborts fatally. -/
theorem absent_route_aborts_dispatch_witness :
    EvaluateObstacle wManagerEmpty wObJunctionCaution [] = .error () :=
  (absent_route_aborts_dispatch wManagerEmpty wObJunctionCaution []).1
    rfl rfl rfl rfl rfl

/-- Counterexample to C4 as stated: the concrete non-still IGNORE-priority
obstacle 4 is dispatched by the sequential branch (it survives its
filter), although the multithreaded grouping excludes it (the partition of
the same cycle is empty), so the sequential branch does not apply the same
per-obstacle filtering. -/
theorem single_thread_ignore_not_filtered_counterexample :
    singleThreadDispatchList wContainerIgnore = [wObIgnore]
    ∧ wObIgnore.latest_feature.priority = .IGNORE
    ∧ partitionIds wFlags wContainerIgnore
        wContainerIgnore.curr_frame_considered_obstacle_ids = (fun _ => []) :=
  ⟨rfl, rfl, rfl⟩

lemma singleThreadFilter_eq_some (c : ObstaclesContainer) (id : Int)
    (ob : Obstacle) :
    singleThreadFilter c id = some ob ↔
      ¬(id < 0) ∧ c.obstacles id = some ob ∧ ob.isStill = false := by
  by_cases h0 : id < 0
  · simp [singleThreadFilter, h0]
  · cases hget : c.obstacles id with
    | none => simp [singleThreadFilter, h0, hget]
    | some o =>
      by_cases hs : o.isStill = true
      · simp only [singleThreadFilter, h0, if_false, hget, hs, if_true]
        constructor
        · intro h; exact Option.noConfusion h
        · rintro ⟨-, h1, h2⟩
          rw [← Option.some.inj h1] at h2
          rw [hs] at h2
          exact Bool.noConfusion h2
      · have hs2 : o.isStill = false := by simpa using hs
        simp only [singleThreadFilter, h0, if_false, hget, hs2, Bool.false_eq_true]
        constructor
        · intro h
          exact ⟨not_false, by rw [Option.some.inj h], by rw [← Option.some.inj h]; exact hs2⟩
        · rintro ⟨-, h1, -⟩
          rw [Option.some.inj h1]

/-- Claim C4 (amended): the sequential fallback branch of `Run` skips
negative ids, absent obstacles and still obstacles — but, unlike the
multithreaded grouping, it does not filter IGNORE-priority obstacles —
and dispatches every survivor through the same `EvaluateObstacle`
procedure as the multithreaded mode, in container iteration order. -/
theorem single_thread_filter_and_dispatch (mgr : EvaluatorManager)
    (c : ObstaclesContainer) (dynamic_env : List Obstacle) :
    (∀ ob, ob ∈ singleThreadDispatchList c ↔
      ∃ id, id ∈ c.curr_frame_considered_obstacle_ids ∧ ¬(id < 0) ∧
        c.obstacles id = some ob ∧ ob.isStill = false)
    ∧ RunSingleThread mgr c dynamic_env =
        (singleThreadDispatchList c).map
          (fun ob => EvaluateObstacle mgr ob dynamic_env) := by
  constructor
  · intro ob
    unfold singleThreadDispatchList
    rw [List.mem_filterMap]
    constructor
    · rintro ⟨id, hmem, hf⟩
      rcases (singleThreadFilter_eq_some c id ob).mp hf with ⟨h0, hget, hstill⟩
      exact ⟨id, hmem, h0, hget, hstill⟩
    · rintro ⟨id, hmem, h0, hget, hstill⟩
      exact ⟨id, hmem, (singleThreadFilter_eq_some c id ob).mpr ⟨h0, hget, hstill⟩⟩
  · unfold RunSingleThread singleThreadDispatchList
    rw [List.map_filterMap]
    congr 1
    funext id
    unfold singleThreadFilter
    by_cases h0 : id < 0
    · simp [h0]
    · simp only [h0, if_false]
      cases c.obstacles id with
      | none => rfl
      | some o =>
        by_cases hs : o.isStill = true
        · simp [hs]
        · simp [(by simpa using hs : o.isStill = false)]

/-- Witness for the amended C4: the IGNORE-priority obstacle 4 is in the
sequential dispatch list. -/
theorem single_thread_filter_and_dispatch_witness :
    wObIgnore ∈ singleThreadDispatchList wContainerIgnore :=
  ((single_thread_filter_and_dispatch wManager wContainerIgnore []).1 wObIgnore).mpr
    ⟨4, by decide, by decide, rfl, rfl⟩

lemma lookupHist_setHist_self (id : Int) (h : ObstacleHistory) (m : HistoryMap) :
    lookupHist id (setHist id h m) = some h := by
  induction m with
  | nil => simp [setHist, lookupHist]
  | cons p rest ih =>
    obtain ⟨k, h0⟩ := p
    by_cases hk : k = id
    · simp [setHist, hk, lookupHist]
    · simp [setHist, hk, lookupHist, ih]

lemma lookupHist_setHist_ne (id k : Int) (h : ObstacleHistory) (m : HistoryMap)
    (hne : k ≠ id) : lookupHist id (setHist k h m) = lookupHist id m := by
  induction m with
  | nil => simp [setHist, lookupHist, hne]
  | cons p rest ih =>
    obtain ⟨k0, h0⟩ := p
    by_cases hk : k0 = k
    · subst hk
      simp [setHist, lookupHist, hne]
    · simp only [setHist, hk, if_false]
      by_cases hk2 : k0 = id
      · simp [lookupHist, hk2]
      · simp [lookupHist, hk2, ih]

lemma lookupHist_none_iff (id : Int) (m : HistoryMap) :
    lookupHist id m = none ↔ ∀ p ∈ m, p.1 ≠ id := by
  induction m with
  | nil => simp [lookupHist]
  | cons p rest ih =>
    obtain ⟨k, h0⟩ := p
    by_cases hk : k = id
    · simp [lookupHist, hk]
    · simp [lookupHist, hk, ih, List.forall_mem_cons]

lemma buildStep_other (flags : Flags) (c : ObstaclesContainer) (m : HistoryMap)
    (id j : Int) (hne : j ≠ id) :
    lookupHist id (buildStep flags c m j) = lookupHist id m := by
  unfold buildStep
  cases c.obstacles j with
  | none => rfl
  | some ob =>
    by_cases hz : ob.history.length = 0
    · simp [hz]
    · simp only [hz, if_false]
      exact lookupHist_setHist_ne id j _ m hne

lemma buildStep_skip (flags : Flags) (c : ObstaclesContainer) (m : HistoryMap)
    (id : Int)
    (habs : c.obstacles id = none ∨
      ∃ ob, c.obstacles id = some ob ∧ ob.history.length = 0) :
    buildStep flags c m id = m := by
  unfold buildStep
  rcases habs with h | ⟨ob, h, hz⟩
  · rw [h]
  · rw [h]; simp [hz]

lemma foldl_build_not_mem (flags : Flags) (c : ObstaclesContainer) (l : List Int)
    (m : HistoryMap) (id : Int) (hnm : id ∉ l) :
    lookupHist id (l.foldl (buildStep flags c) m) = lookupHist id m := by
  induction l generalizing m with
  | nil => rfl
  | cons a t ih =>
    simp only [List.foldl_cons]
    have hne : a ≠ id := fun h => hnm (h ▸ List.mem_cons_self a t)
    rw [ih _ (fun h => hnm (List.mem_cons_of_mem a h)),
      buildStep_other flags c m id a hne]

lemma build_lookup_spec (flags : Flags) (c : ObstaclesContainer) (ids : List Int) :
    ∀ (m : HistoryMap) (id : Int) (h : ObstacleHistory), ids.Nodup →
      lookupHist id m = none →
      lookupHist id (ids.foldl (buildStep flags c) m) = some h →
      ∃ ob, c.obstacles id = some ob ∧ 0 < ob.history.length ∧
        h.feature =
          (ob.history.take (min 10 ob.history.length)).map (projectFeature flags) ∧
        h.is_trainable = IsTrainable flags ob.latest_feature := by
  induction ids with
  | nil =>
    intro m id h _ hm hl
    rw [List.foldl_nil, hm] at hl
    exact Option.noConfusion hl
  | cons a t ih =>
    intro m id h hnd hm hl
    obtain ⟨hna, hndt⟩ := List.nodup_cons.mp hnd
    simp only [List.foldl_cons] at hl
    by_cases ha : a = id
    · subst ha
      cases hget : c.obstacles a with
      | none =>
        rw [foldl_build_not_mem flags c t _ a hna,
          buildStep_skip flags c m a (Or.inl hget), hm] at hl
        exact Option.noConfusion hl
      | some ob =>
        by_cases hz : ob.history.length = 0
        · rw [foldl_build_not_mem flags c t _ a hna,
            buildStep_skip flags c m a (Or.inr ⟨ob, hget, hz⟩), hm] at hl
          exact Option.noConfusion hl
        · have hstep : buildStep flags c m a =
              setHist a
                { feature := (ob.history.take (min 10 ob.history.length)).map
                    (projectFeature flags),
                  is_trainable := IsTrainable flags ob.latest_feature } m := by
            unfold buildStep
            simp only [hget]
            rw [if_neg hz, hm]
            rfl
          rw [foldl_build_not_mem flags c t _ a hna, hstep,
            lookupHist_setHist_self] at hl
          have hh := Option.some.inj hl
          refine ⟨ob, rfl, by omega, ?_, ?_⟩
          · rw [← hh]
          · rw [← hh]
    · exact ih _ id h hndt
        (by rw [buildStep_other flags c m id a ha]; exact hm) hl

/-- Claim C7: every record in the per-cycle history snapshot holds exactly
`min 10 available_history` projected frames, hence never more than 10,
for the obstacle stored under its id.  The hypothesis states that the
movable-id set plus the synthetic ego id has no duplicates (the container
reports sets of ids). -/
theorem history_window_bound (flags : Flags) (c : ObstaclesContainer)
    (hnd : (c.curr_frame_movable_obstacle_ids ++ [flags.ego_vehicle_id]).Nodup)
    (id : Int) (h : ObstacleHistory)
    (hl : lookupHist id (BuildObstacleIdHistoryMap flags c) = some h) :
    ∃ ob, c.obstacles id = some ob ∧
      h.feature.length = min 10 ob.history.length ∧ h.feature.length ≤ 10 := by
  obtain ⟨ob, hget, hpos, hfeat, -⟩ :=
    build_lookup_spec flags c _ [] id h hnd rfl hl
  refine ⟨ob, hget, ?_, ?_⟩
  · rw [hfeat, List.length_map, List.length_take]
    omega
  · rw [hfeat, List.length_map, List.length_take]
    omega

/-- Witness for C7: the builder's record for obstacle 1 holds
`min 10 1 = 1` frame. -/
theorem history_window_bound_witness :
    ∃ ob, wContainer.obstacles 1 = some ob ∧
      wHist1.feature.length = min 10 ob.history.length ∧
      wHist1.feature.length ≤ 10 :=
  history_window_bound wFlags wContainer (by decide) 1 wHist1 (by decide)

lemma IsTrainable_iff (flags : Flags) (f : Feature) :
    IsTrainable flags f = true ↔
      (f.id ≠ flags.ego_vehicle_id ∧ f.priority ≠ .IGNORE ∧
        f.is_still = false ∧ f.type = .VEHICLE) := by
  unfold IsTrainable
  by_cases h1 : f.id = flags.ego_vehicle_id
  · simp [h1]
  · rw [if_neg h1]
    by_cases h2 : f.priority = .IGNORE ∨ f.is_still = true ∨ f.type ≠ .VEHICLE
    · rw [if_pos h2]
      rcases h2 with h2 | h2 | h2 <;> simp [h1, h2]
    · rw [if_neg h2]
      push_neg at h2
      obtain ⟨h2a, h2b, h2c⟩ := h2
      simp [h1, h2a, h2c, (by simpa using h2b : f.is_still = false)]

/-- Claim C8: a snapshot record's trainable flag is true exactly when the
stored obstacle's latest feature has a non-ego id, a priority other than
IGNORE, is not still, and has type VEHICLE. -/
theorem trainable_flag_correct (flags : Flags) (c : ObstaclesContainer)
    (hnd : (c.curr_frame_movable_obstacle_ids ++ [flags.ego_vehicle_id]).Nodup)
    (id : Int) (h : ObstacleHistory)
    (hl : lookupHist id (BuildObstacleIdHistoryMap flags c) = some h) :
    ∃ ob, c.obstacles id = some ob ∧
      (h.is_trainable = true ↔
        (ob.latest_feature.id ≠ flags.ego_vehicle_id ∧
          ob.latest_feature.priority ≠ .IGNORE ∧
          ob.latest_feature.is_still = false ∧
          ob.latest_feature.type = .VEHICLE)) := by
  obtain ⟨ob, hget, -, -, htr⟩ :=
    build_lookup_spec flags c _ [] id h hnd rfl hl
  exact ⟨ob, hget, by rw [htr]; exact IsTrainable_iff flags ob.latest_feature⟩

/-- Witness for C8: the record for obstacle 2 (non-ego NORMAL moving
vehicle) is trainable. -/
theorem trainable_flag_correct_witness :
    ∃ ob, wContainer.obstacles 2 = some ob ∧
      (wHist2.is_trainable = true ↔
        (ob.latest_feature.id ≠ wFlags.ego_vehicle_id ∧
          ob.latest_feature.priority ≠ .IGNORE ∧
          ob.latest_feature.is_still = false ∧
          ob.latest_feature.type = .VEHICLE)) :=
  trainable_flag_correct wFlags wContainer (by decide) 2 wHist2 (by decide)

lemma foldl_build_skip_all (flags : Flags) (c : ObstaclesContainer)
    (l : List Int) (m : HistoryMap) (id : Int)
    (habs : c.obstacles id = none ∨
      ∃ ob, c.obstacles id = some ob ∧ ob.history.length = 0)
    (hm : lookupHist id m = none) :
    lookupHist id (l.foldl (buildStep flags c) m) = none := by
  induction l generalizing m with
  | nil => exact hm
  | cons a t ih =>
    simp only [List.foldl_cons]
    by_cases ha : a = id
    · subst ha
      rw [buildStep_skip flags c m a habs]
      exact ih _ hm
    · exact ih _ (by rw [buildStep_other flags c m id a ha]; exact hm)

lemma dump_fold_ego (flags : Flags) (m : HistoryMap) (env : FrameEnv)
    (h : ∀ p ∈ m, p.1 ≠ flags.ego_vehicle_id) :
    (m.foldl
      (fun curr_frame_env pair =>
        if pair.1 ≠ flags.ego_vehicle_id then
          { curr_frame_env with
              obstacles_history := curr_frame_env.obstacles_history ++ [pair.2] }
        else { curr_frame_env with ego_history := some pair.2 }) env).ego_history =
      env.ego_history := by
  induction m generalizing env with
  | nil => rfl
  | cons p rest ih =>
    simp only [List.foldl_cons]
    rw [if_pos (h p (List.mem_cons_self p rest))]
    exact ih _ (fun q hq => h q (List.mem_cons_of_mem p hq))

/-- Claim C10: an id whose obstacle is absent or has no stored frames —
the synthetic ego id included — contributes no record to the history map,
and hence none to the dumped `FrameEnv`; in particular the ego history is
entirely absent when the ego obstacle is absent or frameless. -/
theorem absent_or_empty_obstacle_no_record (flags : Flags)
    (c : ObstaclesContainer) (id : Int)
    (habs : c.obstacles id = none ∨
      ∃ ob, c.obstacles id = some ob ∧ ob.history.length = 0) :
    lookupHist id (BuildObstacleIdHistoryMap flags c) = none
    ∧ (∀ p ∈ BuildObstacleIdHistoryMap flags c, p.1 ≠ id)
    ∧ (id = flags.ego_vehicle_id →
      (DumpCurrentFrameEnv flags c (BuildObstacleIdHistoryMap flags c)).ego_history =
        none) := by
  have h1 : lookupHist id (BuildObstacleIdHistoryMap flags c) = none :=
    foldl_build_skip_all flags c _ [] id habs rfl
  have h2 := (lookupHist_none_iff id _).mp h1
  refine ⟨h1, h2, ?_⟩
  intro hego
  subst hego
  unfold DumpCurrentFrameEnv
  rw [dump_fold_ego flags _ _ h2]

/-- Witness for C10: the ego id -1 is absent from the concrete container,
so the dumped frame has no ego history. -/
theorem absent_or_empty_obstacle_no_record_witness :
    (DumpCurrentFrameEnv wFlags wContainer
      (BuildObstacleIdHistoryMap wFlags wContainer)).ego_history = none :=
  (absent_or_empty_obstacle_no_record wFlags wContainer (-1)
    (Or.inl (by decide))).2.2 (by decide)

lemma initStep_vehicle_on_lane (mgr : EvaluatorManager) (e : ObstacleConf) :
    (initStep .dumpDataForLearning mgr e).vehicle_on_lane_evaluator =
      mgr.vehicle_on_lane_evaluator ∨
    (initStep .dumpDataForLearning mgr e).vehicle_on_lane_evaluator =
      .LANE_SCANNING_EVALUATOR := by
  obtain ⟨ht, ty, hs, st, he, ev⟩ := e
  cases ht <;> cases he <;> cases hs <;> cases ty <;> cases st <;>
    simp [initStep]

lemma initStep_matching (mgr : EvaluatorManager) (e : ObstacleConf)
    (h1 : e.has_obstacle_type = true) (h2 : e.has_evaluator_type = true)
    (h3 : e.has_obstacle_status = true) (h4 : e.obstacle_type = .VEHICLE)
    (h5 : e.obstacle_status = .ON_LANE) :
    (initStep .dumpDataForLearning mgr e).vehicle_on_lane_evaluator =
      .LANE_SCANNING_EVALUATOR := by
  simp [initStep, h1, h2, h3, h4, h5]

lemma init_preserve_lane_scanning (mgr : EvaluatorManager)
    (config : List ObstacleConf)
    (h : mgr.vehicle_on_lane_evaluator = .LANE_SCANNING_EVALUATOR) :
    (config.foldl (initStep .dumpDataForLearning) mgr).vehicle_on_lane_evaluator =
      .LANE_SCANNING_EVALUATOR := by
  induction config generalizing mgr with
  | nil => exact h
  | cons a t ih =>
    simp only [List.foldl_cons]
    rcases initStep_vehicle_on_lane mgr a with h2 | h2
    · exact ih _ (h2.trans h)
    · exact ih _ h2

/-- Claim C9: when the operating mode is the data-collection
(`kDumpDataForLearning`) offline mode, init-time resolution forces the
vehicle-on-lane route to `LANE_SCANNING_EVALUATOR`, irrespective of the
evaluator type any configuration entry declares.  The hypothesis asks for
at least one well-formed vehicle-on-lane entry, since only such entries
write the route (with no such entry the route keeps the prior member
value, which this translation unit does not set). -/
theorem data_collection_forces_lane_scanning (mode : OfflineMode)
    (mgr : EvaluatorManager) (config : List ObstacleConf)
    (hmode : mode = .dumpDataForLearning)
    (hentry : ∃ e ∈ config, e.has_obstacle_type = true ∧
      e.has_evaluator_type = true ∧ e.has_obstacle_status = true ∧
      e.obstacle_type = .VEHICLE ∧ e.obstacle_status = .ON_LANE) :
    (Init mode mgr config).vehicle_on_lane_evaluator =
      .LANE_SCANNING_EVALUATOR := by
  subst hmode
  obtain ⟨e, hmem, h1, h2, h3, h4, h5⟩ := hentry
  unfold Init
  induction config generalizing mgr with
  | nil => cases hmem
  | cons a t ih =>
    simp only [List.foldl_cons]
    rcases List.mem_cons.mp hmem with rfl | hmem2
    · exact init_preserve_lane_scanning _ t (initStep_matching mgr e h1 h2 h3 h4 h5)
    · exact ih _ hmem2

/-- Witness for C9: a config declaring `MLP_EVALUATOR` for vehicles on
lane still resolves to `LANE_SCANNING_EVALUATOR` in data-collection
mode. -/
theorem data_collection_forces_lane_scanning_witness :
    (Init .dumpDataForLearning wManager
      [wConfVehicleOnLane]).vehicle_on_lane_evaluator =
      .LANE_SCANNING_EVALUATOR :=
  data_collection_forces_lane_scanning .dumpDataForLearning wManager
    [wConfVehicleOnLane] rfl
    ⟨wConfVehicleOnLane, List.mem_cons_self _ _, rfl, rfl, rfl, rfl, rfl⟩

end ApolloPrediction
